import Mathlib

/-!
Shallow embedding of the email-assistant agent notebooks
(src/notebooks/agent.ipynb and the langgraph_101 notebook).

The repository wires a triage router and a tool-calling response loop on
top of an external graph-orchestration framework.  The external model
calls are parameters (oracles); the glue code of the notebooks - the
tools, the triage router, the llm node, the tool handler, the routing
function and the graph wiring - is translated here directly.  Python
exceptions are modelled by an error type and Except; the framework
behaviour the wired graph relies on (message-append state updates and
conditional-edge destination lookup) is modelled explicitly.
-/

namespace EmailAgent

/-- Python exceptions that the notebook code (or the framework glue it
relies on) can raise.  A KeyError carries its key, which for the
conditional-edge lookup may be the Python None value, hence Option. -/
inductive PyError where
  | keyError (key : Option String)
  | valueError (msg : String)
  | indexError (msg : String)
deriving DecidableEq, Repr

/-- Calendar dates, standing in for Python datetime values passed to
schedule_meeting as its preferred_day argument. -/
structure Date where
  year : Nat
  month : Nat
  day : Nat
deriving DecidableEq, Repr

/-- Argument values that can appear in a tool-call argument mapping:
the tools of the notebook take strings, integers, booleans, lists of
strings (attendees) and a datetime (preferred_day). -/
inductive PyVal where
  | vstr (s : String)
  | vint (n : Int)
  | vbool (b : Bool)
  | vstrlist (xs : List String)
  | vdate (d : Date)
deriving DecidableEq, Repr

/-- A tool-call argument mapping, as produced by the model. -/
abbrev Args := List (String × PyVal)

def getStr (a : Args) (k : String) : String :=
  match a.lookup k with
  | some (PyVal.vstr s) => s
  | _ => ""

def getInt (a : Args) (k : String) : Int :=
  match a.lookup k with
  | some (PyVal.vint n) => n
  | _ => 0

def getBool (a : Args) (k : String) : Bool :=
  match a.lookup k with
  | some (PyVal.vbool b) => b
  | _ => false

def getStrList (a : Args) (k : String) : List String :=
  match a.lookup k with
  | some (PyVal.vstrlist xs) => xs
  | _ => []

def getDate (a : Args) (k : String) : Date :=
  match a.lookup k with
  | some (PyVal.vdate d) => d
  | _ => ⟨1970, 1, 1⟩

/-- Month names for the %B directive of strftime. -/
def monthName (m : Nat) : String :=
  (["January", "February", "March", "April", "May", "June", "July",
    "August", "September", "October", "November", "December"]).getD (m - 1) ""

/-- Weekday names for the %A directive of strftime, indexed with 0 = Sunday. -/
def weekdayName (w : Nat) : String :=
  (["Sunday", "Monday", "Tuesday", "Wednesday", "Thursday", "Friday",
    "Saturday"]).getD w ""

/-- Day of week (0 = Sunday) by the Sakamoto congruence, as the Python
datetime library computes it for Gregorian dates. -/
def dayOfWeek (y m d : Nat) : Nat :=
  let t : List Nat := [0, 3, 2, 5, 0, 3, 5, 1, 4, 6, 2, 4]
  let y2 := if m < 3 then y - 1 else y
  (y2 + y2 / 4 - y2 / 100 + y2 / 400 + t.getD (m - 1) 0 + d) % 7

/-- Zero-padded two-digit rendering, the %d directive of strftime. -/
def pad2 (n : Nat) : String :=
  if n < 10 then "0" ++ toString n else toString n

/-- strftime with format %A, %B %d, %Y as used by schedule_meeting. -/
def strftimeFull (d : Date) : String :=
  weekdayName (dayOfWeek d.year d.month d.day) ++ ", " ++ monthName d.month
    ++ " " ++ pad2 d.day ++ ", " ++ toString d.year

/-- Tool write_email of the notebook: returns its confirmation f-string. -/
def write_email («to» subject content : String) : String :=
  "Email sent to " ++ «to» ++ " with subject \x27" ++ subject
    ++ "\x27 and content: " ++ content

/-- Tool schedule_meeting of the notebook: formats preferred_day with
strftime and echoes duration and attendee count. -/
def schedule_meeting (attendees : List String) (subject : String)
    (duration_minutes : Int) (preferred_day : Date) (start_time : Int) : String :=
  let date_str := strftimeFull preferred_day
  "Meeting \x27" ++ subject ++ "\x27 scheduled on " ++ date_str ++ " at "
    ++ toString start_time ++ " for " ++ toString duration_minutes
    ++ " minutes with " ++ toString attendees.length ++ " attendees"

/-- Tool check_calendar_availability of the notebook: placeholder
returning a fixed slot list with the day echoed in the label. -/
def check_calendar_availability (day : String) : String :=
  "Available times on " ++ day ++ ": 9:00 AM, 2:00 PM, 4:00 PM"

/-- The terminal-marker tool Done, a pydantic model with a boolean
field; invoking it constructs the instance, rendered here as text. -/
def doneToolInvoke (a : Args) : String :=
  "done=" ++ toString (getBool a "done")

/-- Message roles of the conversation log. -/
inductive Role where
  | system
  | user
  | assistant
  | tool
deriving DecidableEq, Repr

/-- A tool-call request: tool name, argument mapping, unique call id. -/
structure ToolCall where
  name : String
  args : Args
  id : String
deriving DecidableEq, Repr

/-- A conversation message.  Assistant messages may carry tool-call
requests; tool messages carry the call id they answer. -/
structure Message where
  role : Role
  content : String
  tool_calls : List ToolCall := []
  tool_call_id : Option String := none
deriving DecidableEq, Repr

/-- The email_input record: the dict with author, to, subject and
email_thread keys used throughout the notebook. -/
structure Email where
  author : String
  «to» : String
  subject : String
  email_thread : String
deriving DecidableEq, Repr

/-- The graph State of agent.ipynb: MessagesState extended with
email_input and classification_decision (unset before triage). -/
structure State where
  email_input : Email
  messages : List Message := []
  classification_decision : Option String := none
deriving DecidableEq, Repr

/-- A node return value: the partial state update the node hands back
to the framework.  A missing key is none. -/
structure StateUpdate where
  messages : List Message := []
  classification_decision : Option String := none
deriving DecidableEq, Repr

/-- Framework state-update semantics for this State schema: the
messages key appends (MessagesState reducer) and classification_decision
overwrites when present in the update. -/
def applyUpdate (s : State) (u : StateUpdate) : State :=
  { s with
    messages := s.messages ++ u.messages
    classification_decision :=
      match u.classification_decision with
      | some c => some c
      | none => s.classification_decision }

/-- Modelled from the spec: parse_email lives in email_assistant.utils,
which is not part of the sources here.  The spec describes the Email
record fields author, recipient, subject, thread body; parse_email
extracts them in the order author, to, subject, email_thread used by
triage_router. -/
def parse_email (e : Email) : String × String × String × String :=
  (e.author, e.«to», e.subject, e.email_thread)

/-- Modelled from the spec: format_email_markdown lives in
email_assistant.utils, absent from the sources.  The spec says the
respond instruction is seeded with the formatted email - subject,
author, recipient, thread body - so the rendering embeds all four
fields. -/
def format_email_markdown (subject author «to» email_thread : String) : String :=
  "**Subject**: " ++ subject ++ "\n**From**: " ++ author ++ "\n**To**: "
    ++ «to» ++ "\n\n" ++ email_thread ++ "\n"

/-- Modelled from the spec: the static background text imported from
email_assistant.prompts, absent from the sources. -/
def default_background : String :=
  "Background information about the user and their company."

/-- Modelled from the spec: the static triage policy text imported from
email_assistant.prompts, absent from the sources. -/
def default_triage_instructions : String :=
  "Triage policy describing which emails to ignore, notify on, or respond to."

/-- Modelled from the spec: the triage system prompt template, a static
prompt assembled from background and triage policy text. -/
def triage_system_prompt_format (background triage_instructions : String) : String :=
  "You are a triage assistant.\n" ++ background ++ "\n" ++ triage_instructions

/-- Modelled from the spec: the triage user prompt template, derived
from the Email fields. -/
def triage_user_prompt_format (author «to» subject email_thread : String) : String :=
  "From: " ++ author ++ "\nTo: " ++ «to» ++ "\nSubject: " ++ subject
    ++ "\n\n" ++ email_thread

/-- The structured output schema of the triage model: step-by-step
reasoning plus a classification label. -/
structure RouterSchema where
  reasoning : String
  classification : String
deriving DecidableEq, Repr

/-- The external triage model behind llm_router.invoke: consumes the
system prompt and the user prompt, returns a RouterSchema. -/
abbrev RouterModel := String → String → RouterSchema

/-- Destinations of the triage Command: the response agent or END. -/
inductive TriageGoto where
  | response_agent
  | «END»
deriving DecidableEq, Repr

/-- A Command value: next node plus state update. -/
structure Command where
  goto : TriageGoto
  update : StateUpdate
deriving DecidableEq, Repr

/-- The system prompt string triage_router submits. -/
def triageSystemPrompt : String :=
  triage_system_prompt_format default_background default_triage_instructions

/-- The user prompt string triage_router submits for a given state. -/
def triageUserPrompt (s : State) : String :=
  let p := parse_email s.email_input
  triage_user_prompt_format p.1 p.2.1 p.2.2.1 p.2.2.2

/-- The RouterSchema the triage model returns on a given state. -/
def triageResult (llm_router : RouterModel) (s : State) : RouterSchema :=
  llm_router triageSystemPrompt (triageUserPrompt s)

/-- triage_router of agent.ipynb: parses the email, formats the two
prompts, invokes the structured-output model, and branches on the
classification label; an unexpected label raises ValueError. -/
def triage_router (llm_router : RouterModel) (state : State) :
    Except PyError Command :=
  let p := parse_email state.email_input
  let author := p.1
  let «to» := p.2.1
  let subject := p.2.2.1
  let email_thread := p.2.2.2
  let result := llm_router triageSystemPrompt
    (triage_user_prompt_format author «to» subject email_thread)
  if result.classification = "respond" then
    Except.ok
      { goto := TriageGoto.response_agent
        update :=
          { messages :=
              [{ role := Role.user
                 content := "Respond to the email: \n\n"
                   ++ format_email_markdown subject author «to» email_thread }]
            classification_decision := some result.classification } }
  else if result.classification = "ignore" then
    Except.ok
      { goto := TriageGoto.«END»
        update := { classification_decision := some result.classification } }
  else if result.classification = "notify" then
    Except.ok
      { goto := TriageGoto.«END»
        update := { classification_decision := some result.classification } }
  else
    Except.error (PyError.valueError
      ("Invalid classification: " ++ result.classification))

/-- Python dict lookup: returns the value or raises KeyError naming the
missing key. -/
def pyDictGet {α : Type} (d : List (String × α)) (k : String) :
    Except PyError α :=
  match d.lookup k with
  | some v => Except.ok v
  | none => Except.error (PyError.keyError (some k))

/-- tools_by_name of agent.ipynb: the dict from tool name to tool built
from the list write_email, schedule_meeting, check_calendar_availability,
Done.  Each tool consumes the argument mapping of the call. -/
def tools_by_name : List (String × (Args → String)) :=
  [ ("write_email", fun a =>
      write_email (getStr a "to") (getStr a "subject") (getStr a "content")),
    ("schedule_meeting", fun a =>
      schedule_meeting (getStrList a "attendees") (getStr a "subject")
        (getInt a "duration_minutes") (getDate a "preferred_day")
        (getInt a "start_time")),
    ("check_calendar_availability", fun a =>
      check_calendar_availability (getStr a "day")),
    ("Done", doneToolInvoke) ]

/-- The loop body of tool_handler: for each tool call of the turn, look
the tool up by name (KeyError on an unknown name aborts), invoke it, and
record a tool message carrying the observation and the call id. -/
def tool_handler_results : List ToolCall → Except PyError (List Message)
  | [] => Except.ok []
  | tool_call :: rest =>
      match pyDictGet tools_by_name tool_call.name with
      | Except.error e => Except.error e
      | Except.ok tool =>
          let observation := tool tool_call.args
          match tool_handler_results rest with
          | Except.error e => Except.error e
          | Except.ok restMsgs =>
              Except.ok ({ role := Role.tool, content := observation,
                           tool_calls := [],
                           tool_call_id := some tool_call.id } :: restMsgs)

/-- tool_handler of agent.ipynb: iterates over the tool calls of the
last message and returns the list of tool messages as its state update.
Indexing an empty message list raises IndexError. -/
def tool_handler (state : State) : Except PyError StateUpdate :=
  match state.messages.getLast? with
  | none => Except.error (PyError.indexError "list index out of range")
  | some last_message =>
      match tool_handler_results last_message.tool_calls with
      | Except.error e => Except.error e
      | Except.ok result =>
          Except.ok { messages := result, classification_decision := none }

/-- The framework constant END, the reserved terminal node name. -/
def «END» : String := "__end__"

/-- The first-match scan of should_continue over the tool calls of the
last message: the Python for loop returns on its first iteration, END
when that call is named Done and the tool handler name otherwise; an
empty list falls through to the implicit None. -/
def should_continue_scan : List ToolCall → Option String
  | [] => none
  | tool_call :: _ =>
      if tool_call.name = "Done" then some «END» else some "tool_handler"

/-- should_continue of agent.ipynb: routes on the last message of the
state; a missing last message would raise IndexError. -/
def should_continue (state : State) :
    Except PyError (Option String) :=
  match state.messages.getLast? with
  | none => Except.error (PyError.indexError "list index out of range")
  | some last_message => Except.ok (should_continue_scan last_message.tool_calls)

/-- The path map of add_conditional_edges on llm_call: tool handler to
tool handler, END to END. -/
def path_map : List (String × String) :=
  [("tool_handler", "tool_handler"), («END», «END»)]

/-- The conditional-edge destination lookup of the framework: the branch
result is resolved through the path map; a None result or an unmapped
label raises KeyError on that result. -/
def resolve_branch (r : Option String) : Except PyError String :=
  match r with
  | none => Except.error (PyError.keyError none)
  | some lbl =>
      match path_map.lookup lbl with
      | some dest => Except.ok dest
      | none => Except.error (PyError.keyError (some lbl))

/-- Modelled from the spec: the agent system prompt, a static prompt
assembled from tool-usage guidance, background, and the response and
calendar preference blocks, all imported from email_assistant modules
absent from the sources. -/
def agent_system_prompt_filled : String :=
  "Tool usage guidance.\n" ++ default_background
    ++ "\nResponse preferences.\nCalendar preferences."

/-- The external chat model behind llm_call, with tool use enforced at
the binding: consumes the prompt messages, returns the content and the
tool-call requests of one assistant message. -/
abbrev ChatModel := List Message → String × List ToolCall

/-- The prompt llm_call submits: the static system prompt followed by
the current messages. -/
def llm_prompt (state : State) : List Message :=
  { role := Role.system, content := agent_system_prompt_filled,
    tool_calls := [], tool_call_id := none } :: state.messages

/-- llm_call of agent.ipynb: invokes the tool-bound model on the system
prompt plus the current messages and appends the assistant response. -/
def llm_call (model : ChatModel) (state : State) : StateUpdate :=
  let response := model (llm_prompt state)
  { messages := [{ role := Role.assistant, content := response.1,
                   tool_calls := response.2, tool_call_id := none }],
    classification_decision := none }

/-- One iteration of the compiled agent graph: run llm_call, resolve the
conditional edge on should_continue, and either stop at END or run
tool_handler and follow its fixed edge back to llm_call.  The boolean is
true when the iteration reached END. -/
def loop_body (model : ChatModel) (state : State) :
    Except PyError (State × Bool) :=
  let s1 := applyUpdate state (llm_call model state)
  match should_continue s1 with
  | Except.error e => Except.error e
  | Except.ok route =>
      match resolve_branch route with
      | Except.error e => Except.error e
      | Except.ok dest =>
          if dest = «END» then
            Except.ok (s1, true)
          else
            match tool_handler s1 with
            | Except.error e => Except.error e
            | Except.ok u => Except.ok (applyUpdate s1 u, false)

/-- Outcomes of running a graph: normal END, a raised error, or fuel
exhaustion of the model of the unbounded loop. -/
inductive RunResult where
  | finished (final : State)
  | failed (e : PyError)
  | outOfFuel (s : State)
deriving DecidableEq, Repr

/-- The compiled agent graph of agent.ipynb: START to llm_call, the
conditional edge to tool_handler or END, and the edge from tool_handler
back to llm_call, iterated with explicit fuel. -/
def run_agent (model : ChatModel) : Nat → State → RunResult
  | 0, s => RunResult.outOfFuel s
  | fuel + 1, s =>
      match loop_body model s with
      | Except.error e => RunResult.failed e
      | Except.ok (s1, true) => RunResult.finished s1
      | Except.ok (s1, false) => run_agent model fuel s1

/-- The combined workflow of agent.ipynb: START to triage_router, whose
Command updates the state and routes to END or to the response agent. -/
def overall_workflow (llm_router : RouterModel) (model : ChatModel)
    (fuel : Nat) (state : State) : RunResult :=
  match triage_router llm_router state with
  | Except.error e => RunResult.failed e
  | Except.ok cmd =>
      let s1 := applyUpdate state cmd.update
      match cmd.goto with
      | TriageGoto.«END» => RunResult.finished s1
      | TriageGoto.response_agent => run_agent model fuel s1

/-! Helper lemmas shared by the claim theorems. -/

lemma getLast?_append_one {α : Type} (l : List α) (a : α) :
    (l ++ [a]).getLast? = some a := by
  induction l with
  | nil => rfl
  | cons x xs ih =>
      cases xs with
      | nil => rfl
      | cons y ys =>
          rw [List.cons_append, List.cons_append, List.getLast?_cons_cons]
          exact ih

/-- The message list after llm_call is the old list with the assistant
response appended. -/
lemma messages_after_llm (model : ChatModel) (s : State) :
    (applyUpdate s (llm_call model s)).messages =
      s.messages ++ [{ role := Role.assistant, content := (model (llm_prompt s)).1,
                       tool_calls := (model (llm_prompt s)).2, tool_call_id := none }] := rfl

/-- After llm_call, should_continue scans the tool calls of the model
response just appended. -/
lemma should_continue_after_llm (model : ChatModel) (s : State) :
    should_continue (applyUpdate s (llm_call model s)) =
      Except.ok (should_continue_scan (model (llm_prompt s)).2) := by
  rw [should_continue, messages_after_llm, getLast?_append_one]

lemma resolve_branch_end : resolve_branch (some «END») = Except.ok «END» := rfl

lemma resolve_branch_tool :
    resolve_branch (some "tool_handler") = Except.ok "tool_handler" := rfl

/-- A model response with no tool call falls through should_continue to
None, and the conditional-edge lookup raises KeyError on it. -/
lemma loop_body_no_calls (model : ChatModel) (s : State)
    (h : (model (llm_prompt s)).2 = []) :
    loop_body model s = Except.error (PyError.keyError none) := by
  rw [loop_body, should_continue_after_llm, h]
  rfl

/-- A model response whose first tool call is Done routes straight to
END: the iteration finishes with only the assistant message appended. -/
lemma loop_body_done_first (model : ChatModel) (s : State) (c : ToolCall)
    (rest : List ToolCall)
    (hcalls : (model (llm_prompt s)).2 = c :: rest) (hdone : c.name = "Done") :
    loop_body model s = Except.ok (applyUpdate s (llm_call model s), true) := by
  rw [loop_body, should_continue_after_llm, hcalls]
  simp [should_continue_scan, hdone, resolve_branch_end]

/-- A model response whose first tool call is not Done routes to the
tool handler, and the iteration does not finish on this turn. -/
lemma loop_body_tool_route (model : ChatModel) (s : State) (c : ToolCall)
    (rest : List ToolCall)
    (hcalls : (model (llm_prompt s)).2 = c :: rest) (hnot : c.name ≠ "Done") :
    loop_body model s =
      match tool_handler (applyUpdate s (llm_call model s)) with
      | Except.error e => Except.error e
      | Except.ok u =>
          Except.ok (applyUpdate (applyUpdate s (llm_call model s)) u, false) := by
  rw [loop_body, should_continue_after_llm, hcalls]
  have hne : ("tool_handler" : String) ≠ «END» := by decide
  simp [should_continue_scan, hnot, resolve_branch_tool, hne]

/-- After llm_call, the tool handler dispatches exactly the tool calls
of the model response just appended. -/
lemma tool_handler_after_llm (model : ChatModel) (s : State) :
    tool_handler (applyUpdate s (llm_call model s)) =
      match tool_handler_results (model (llm_prompt s)).2 with
      | Except.error e => Except.error e
      | Except.ok result =>
          Except.ok { messages := result, classification_decision := none } := by
  rw [tool_handler, messages_after_llm, getLast?_append_one]

/-- A successful dispatch of a call batch yields one tool message per
call, in order, each linked by the id of its call. -/
lemma tool_handler_results_spec (calls : List ToolCall) :
    ∀ msgs, tool_handler_results calls = Except.ok msgs →
      msgs.map (fun m => m.tool_call_id) = calls.map (fun c => some c.id) ∧
      ∀ m ∈ msgs, m.role = Role.tool := by
  induction calls with
  | nil =>
      intro msgs h
      rw [tool_handler_results] at h
      injection h with h
      subst h
      simp
  | cons c rest ih =>
      intro msgs h
      rw [tool_handler_results] at h
      split at h
      · exact absurd h (by simp)
      · split at h
        · exact absurd h (by simp)
        · rename_i tool _ restMsgs hrest
          injection h with h
          subst h
          rcases ih restMsgs hrest with ⟨hmap, hrole⟩
          refine ⟨by simp [hmap], ?_⟩
          intro m hm
          rcases List.mem_cons.mp hm with rfl | hm2
          · rfl
          · exact hrole m hm2

/-- If some call of the batch names an unregistered tool, the dispatch
aborts with a KeyError naming an unregistered tool. -/
lemma tool_handler_results_unknown (calls : List ToolCall)
    (h : ∃ c ∈ calls, tools_by_name.lookup c.name = none) :
    ∃ n, tool_handler_results calls = Except.error (PyError.keyError (some n)) ∧
      tools_by_name.lookup n = none := by
  induction calls with
  | nil => rcases h with ⟨c, hc, _⟩; simp at hc
  | cons c0 rest ih =>
      rcases h with ⟨c, hc, hunk⟩
      cases hl : tools_by_name.lookup c0.name with
      | none =>
          exact ⟨c0.name, by rw [tool_handler_results, pyDictGet, hl], hl⟩
      | some tool =>
          have hcr : c ∈ rest := by
            rcases List.mem_cons.mp hc with rfl | hr
            · rw [hl] at hunk; cases hunk
            · exact hr
          rcases ih ⟨c, hcr, hunk⟩ with ⟨n, hres, hn⟩
          refine ⟨n, ?_, hn⟩
          rw [tool_handler_results, pyDictGet, hl, hres]

lemma run_agent_succ_err (model : ChatModel) (n : Nat) (s : State) (e : PyError)
    (h : loop_body model s = Except.error e) :
    run_agent model (n + 1) s = RunResult.failed e := by
  rw [run_agent, h]

lemma run_agent_succ_done (model : ChatModel) (n : Nat) (s s1 : State)
    (h : loop_body model s = Except.ok (s1, true)) :
    run_agent model (n + 1) s = RunResult.finished s1 := by
  rw [run_agent, h]

lemma run_agent_succ_cont (model : ChatModel) (n : Nat) (s s1 : State)
    (h : loop_body model s = Except.ok (s1, false)) :
    run_agent model (n + 1) s = run_agent model n s1 := by
  rw [run_agent, h]

/-- tool_handler dispatches the tool calls of the last message. -/
lemma tool_handler_eq (s : State) (lm : Message)
    (hlast : s.messages.getLast? = some lm) :
    tool_handler s =
      match tool_handler_results lm.tool_calls with
      | Except.error e => Except.error e
      | Except.ok result =>
          Except.ok { messages := result, classification_decision := none } := by
  rw [tool_handler, hlast]

/-! Claim theorems. -/

/-- C10: check_calendar_availability is pure and returns the same open
slots - 9:00 AM, 2:00 PM, 4:00 PM - for every day; the day argument only
appears in the echoed label of the returned text. -/
theorem check_calendar_availability_constant_slots (day : String) :
    check_calendar_availability day =
      "Available times on " ++ day ++ ": 9:00 AM, 2:00 PM, 4:00 PM" := rfl

/-- C9: when the last message carries at least one tool call, the loop
routing decision depends only on the first call of that message: END
exactly when that first call is named Done, the tool handler otherwise,
whatever the remaining calls are. -/
theorem routing_depends_on_first_call (s : State) (lm : Message)
    (c : ToolCall) (rest : List ToolCall)
    (hlast : s.messages.getLast? = some lm)
    (hcalls : lm.tool_calls = c :: rest) :
    should_continue s =
      Except.ok (if c.name = "Done" then some «END» else some "tool_handler") := by
  rw [should_continue, hlast]
  show Except.ok (should_continue_scan lm.tool_calls) = _
  rw [hcalls]
  rfl

/-- C8: on a respond classification, triage_router directs control to
the response agent and its update appends exactly one user-role
instruction message seeded with the formatted email and sets
classification_decision to respond. -/
theorem respond_seeds_instruction (llm_router : RouterModel) (s : State)
    (h : (triageResult llm_router s).classification = "respond") :
    triage_router llm_router s = Except.ok
      { goto := TriageGoto.response_agent
        update :=
          { messages :=
              [{ role := Role.user
                 content := "Respond to the email: \n\n"
                   ++ format_email_markdown s.email_input.subject
                       s.email_input.author s.email_input.«to»
                       s.email_input.email_thread
                 tool_calls := []
                 tool_call_id := none }]
            classification_decision := some "respond" } } := by
  simp only [triageResult, triageUserPrompt, triage_user_prompt_format,
    parse_email] at h
  simp [triage_router, parse_email, triage_user_prompt_format, h]

/-- C7: a triage classification outside the closed label set raises
ValueError naming the label, and the combined workflow fails with that
error instead of routing the state onward. -/
theorem invalid_label_raises (llm_router : RouterModel) (model : ChatModel)
    (fuel : Nat) (s : State)
    (h : (triageResult llm_router s).classification ∉
      (["ignore", "respond", "notify"] : List String)) :
    triage_router llm_router s = Except.error (PyError.valueError
        ("Invalid classification: " ++ (triageResult llm_router s).classification)) ∧
    overall_workflow llm_router model fuel s = RunResult.failed (PyError.valueError
        ("Invalid classification: " ++ (triageResult llm_router s).classification)) := by
  have h1 : (triageResult llm_router s).classification ≠ "respond" := by
    intro hh; exact h (by simp [hh])
  have h2 : (triageResult llm_router s).classification ≠ "ignore" := by
    intro hh; exact h (by simp [hh])
  have h3 : (triageResult llm_router s).classification ≠ "notify" := by
    intro hh; exact h (by simp [hh])
  simp only [triageResult, triageUserPrompt, triage_user_prompt_format,
    parse_email] at h1 h2 h3
  have ht : triage_router llm_router s = Except.error (PyError.valueError
      ("Invalid classification: " ++ (triageResult llm_router s).classification)) := by
    simp [triage_router, parse_email, h1, h2, h3, triageResult, triageUserPrompt,
      triage_user_prompt_format]
  exact ⟨ht, by simp [overall_workflow, ht]⟩

/-- C3: on an ignore or notify classification the triage update touches
only classification_decision; the response loop is never entered and the
messages of the state are returned unchanged. -/
theorem terminal_classification_frame (llm_router : RouterModel)
    (model : ChatModel) (fuel : Nat) (s : State)
    (h : (triageResult llm_router s).classification = "ignore" ∨
         (triageResult llm_router s).classification = "notify") :
    overall_workflow llm_router model fuel s =
      RunResult.finished
        { s with classification_decision :=
            (some (triageResult llm_router s).classification) } := by
  rcases h with h | h <;>
  · rw [h]
    simp only [triageResult, triageUserPrompt, triage_user_prompt_format,
      parse_email] at h
    simp [overall_workflow, triage_router, parse_email, triage_user_prompt_format,
      h, applyUpdate]

/-- C1: a response-loop run can reach the terminal state only through a
model turn whose tool calls include Done: whenever the run finishes, the
final conversation contains an assistant message carrying a tool call
named Done. -/
theorem termination_requires_done (model : ChatModel) (fuel : Nat)
    (s final : State)
    (h : run_agent model fuel s = RunResult.finished final) :
    ∃ m ∈ final.messages, m.role = Role.assistant ∧
      ∃ tc ∈ m.tool_calls, tc.name = "Done" := by
  induction fuel generalizing s with
  | zero => rw [run_agent] at h; cases h
  | succ n ih =>
      rcases hcalls : (model (llm_prompt s)).2 with _ | ⟨c, rest⟩
      · rw [run_agent_succ_err model n s _ (loop_body_no_calls model s hcalls)] at h
        cases h
      · by_cases hdone : c.name = "Done"
        · rw [run_agent_succ_done model n s _
            (loop_body_done_first model s c rest hcalls hdone)] at h
          injection h with h
          subst h
          refine ⟨{ role := Role.assistant, content := (model (llm_prompt s)).1,
                    tool_calls := (model (llm_prompt s)).2,
                    tool_call_id := none }, ?_, rfl, c, ?_, hdone⟩
          · rw [messages_after_llm]
            exact List.mem_append_right _ (List.mem_singleton_self _)
          · show c ∈ (model (llm_prompt s)).2
            rw [hcalls]
            exact List.mem_cons_self _ _
        · have hroute := loop_body_tool_route model s c rest hcalls hdone
          cases hth : tool_handler (applyUpdate s (llm_call model s)) with
          | error e =>
              rw [hth] at hroute
              rw [run_agent_succ_err model n s e hroute] at h
              cases h
          | ok u =>
              rw [hth] at hroute
              rw [run_agent_succ_cont model n s _ hroute] at h
              exact ih _ h

/-- C4: a model response with zero tool calls is fatal: should_continue
falls through to None, the conditional-edge lookup raises, and the run
fails instead of exiting the loop normally. -/
theorem no_tool_call_is_fatal (model : ChatModel) (fuel : Nat) (s : State)
    (h : (model (llm_prompt s)).2 = []) :
    run_agent model (fuel + 1) s = RunResult.failed (PyError.keyError none) :=
  run_agent_succ_err model fuel s _ (loop_body_no_calls model s h)

/-- C5: a successful tool_handler invocation appends tool-result
messages in bijection with the tool calls of the last message: same
count, in emission order, each linked by the id of its call, and none
without a matching call. -/
theorem tool_results_bijection (s : State) (lm : Message) (u : StateUpdate)
    (hlast : s.messages.getLast? = some lm)
    (hok : tool_handler s = Except.ok u) :
    u.messages.map (fun m => m.tool_call_id) =
      lm.tool_calls.map (fun c => some c.id) ∧
    u.messages.length = lm.tool_calls.length ∧
    ∀ m ∈ u.messages, m.role = Role.tool := by
  rw [tool_handler_eq s lm hlast] at hok
  cases hres : tool_handler_results lm.tool_calls with
  | error e => rw [hres] at hok; cases hok
  | ok msgs =>
      rw [hres] at hok
      injection hok with hok
      subst hok
      rcases tool_handler_results_spec lm.tool_calls msgs hres with ⟨hmap, hrole⟩
      refine ⟨hmap, ?_, hrole⟩
      have hlen := congrArg List.length hmap
      simpa using hlen

/-- C2 (amended): when a model turn carries the terminal marker Done
among its tool calls, the code routes on the first call only.  If Done
is first, the loop terminates at once and none of the calls of that
turn is executed or recorded.  If the first call is not Done, every
call of the turn (the marker included) is executed and recorded in
emission order, and the loop does not terminate on that turn but
proceeds to another model turn. -/
theorem done_alongside_first_call_routing (model : ChatModel) (s : State)
    (c : ToolCall) (rest : List ToolCall)
    (hcalls : (model (llm_prompt s)).2 = c :: rest) :
    (c.name = "Done" →
      ∀ fuel, run_agent model (fuel + 1) s =
        RunResult.finished (applyUpdate s (llm_call model s))) ∧
    (c.name ≠ "Done" →
      ∀ msgs, tool_handler_results (c :: rest) = Except.ok msgs →
        loop_body model s = Except.ok
          (applyUpdate (applyUpdate s (llm_call model s))
            { messages := msgs, classification_decision := none }, false) ∧
        msgs.map (fun m => m.tool_call_id) =
          (c :: rest).map (fun d => some d.id)) := by
  constructor
  · intro hdone fuel
    exact run_agent_succ_done model fuel s _
      (loop_body_done_first model s c rest hcalls hdone)
  · intro hnot msgs hmsgs
    have hth := tool_handler_after_llm model s
    rw [hcalls, hmsgs] at hth
    have hroute := loop_body_tool_route model s c rest hcalls hnot
    rw [hth] at hroute
    exact ⟨hroute, (tool_handler_results_spec (c :: rest) msgs hmsgs).1⟩

/-- C6 (amended): a model turn whose first tool call is not Done and
that requests an unregistered tool name makes the run abort with a
KeyError naming an unregistered tool - the dict-lookup failure kind,
distinct from the ValueError of the triage contract. -/
theorem unknown_tool_aborts (model : ChatModel) (fuel : Nat) (s : State)
    (c : ToolCall) (rest : List ToolCall)
    (hcalls : (model (llm_prompt s)).2 = c :: rest)
    (hnotdone : c.name ≠ "Done")
    (hunk : ∃ d ∈ c :: rest, tools_by_name.lookup d.name = none) :
    ∃ n, run_agent model (fuel + 1) s =
        RunResult.failed (PyError.keyError (some n)) ∧
      tools_by_name.lookup n = none ∧
      ∀ msg, PyError.keyError (some n) ≠ PyError.valueError msg := by
  rcases tool_handler_results_unknown (c :: rest) hunk with ⟨n, hres, hn⟩
  refine ⟨n, ?_, hn, fun msg h => by cases h⟩
  have hth := tool_handler_after_llm model s
  rw [hcalls, hres] at hth
  have hroute := loop_body_tool_route model s c rest hcalls hnotdone
  rw [hth] at hroute
  exact run_agent_succ_err model fuel s _ hroute

/-! Concrete runs: shared example inputs, the counterexamples of the
corrected claims, and the witnesses of the theorems above. -/

def exEmail : Email :=
  { author := "Alice Smith <alice.smith@company.com>"
    «to» := "John Doe <john.doe@company.com>"
    subject := "Quick question about API documentation"
    email_thread := "Hi John, could you clarify the docs?" }

def exUserMsg : Message := { role := Role.user, content := "Respond to the email." }

def exInitState : State := { email_input := exEmail }

def exState : State := { email_input := exEmail, messages := [exUserMsg] }

def doneCall : ToolCall :=
  { name := "Done", args := [("done", PyVal.vbool true)], id := "call_done" }

def emailCall : ToolCall :=
  { name := "write_email"
    args := [("to", PyVal.vstr "alice.smith@company.com"),
             ("subject", PyVal.vstr "Re: docs"),
             ("content", PyVal.vstr "On it.")]
    id := "call_email" }

def smsCall : ToolCall := { name := "send_sms", args := [], id := "call_sms" }

def modelDoneFirst : ChatModel := fun _ => ("", [doneCall, emailCall])

def modelDoneThenUnknown : ChatModel := fun _ => ("", [doneCall, smsCall])

def modelDoneOnly : ChatModel := fun _ => ("", [doneCall])

def modelNoCalls : ChatModel := fun _ => ("I cannot call tools", [])

def modelUnknownFirst : ChatModel := fun _ => ("", [smsCall])

def routerIgnore : RouterModel :=
  fun _ _ => { reasoning := "irrelevant", classification := "ignore" }

def routerRespond : RouterModel :=
  fun _ _ => { reasoning := "needs a reply", classification := "respond" }

def routerBad : RouterModel :=
  fun _ _ => { reasoning := "??", classification := "urgent" }

/-- The final state of the run where the model emits Done first
alongside write_email: only the assistant turn was appended. -/
def exFinalDoneFirst : State :=
  { email_input := exEmail
    messages :=
      [exUserMsg,
       { role := Role.assistant, content := ""
         tool_calls := [doneCall, emailCall], tool_call_id := none }]
    classification_decision := none }

/-- The final state of the run where the model emits Done first
alongside an unknown tool name. -/
def exFinalDoneUnknown : State :=
  { email_input := exEmail
    messages :=
      [exUserMsg,
       { role := Role.assistant, content := ""
         tool_calls := [doneCall, smsCall], tool_call_id := none }]
    classification_decision := none }

/-- The final state of the run where the model emits a lone Done. -/
def exFinalDoneOnly : State :=
  { email_input := exEmail
    messages :=
      [exUserMsg,
       { role := Role.assistant, content := ""
         tool_calls := [doneCall], tool_call_id := none }]
    classification_decision := none }

/-- An assistant turn requesting write_email and then Done. -/
def exToolTurnMsg : Message :=
  { role := Role.assistant, content := ""
    tool_calls := [emailCall, doneCall], tool_call_id := none }

def exStateTools : State :=
  { email_input := exEmail, messages := [exUserMsg, exToolTurnMsg] }

/-- What tool_handler returns on exStateTools. -/
def exToolUpdate : StateUpdate :=
  { messages :=
      [{ role := Role.tool
         content := "Email sent to alice.smith@company.com with subject \x27Re: docs\x27 and content: On it."
         tool_calls := [], tool_call_id := some "call_email" },
       { role := Role.tool, content := "done=true"
         tool_calls := [], tool_call_id := some "call_done" }]
    classification_decision := none }

/-- C2 counterexample: the model turn carries Done alongside
write_email, the run terminates at once, and the final conversation
records no tool result at all - the sibling call was never executed. -/
theorem done_alongside_skipped_cex :
    (modelDoneFirst (llm_prompt exState)).2.map ToolCall.name =
      ["Done", "write_email"] ∧
    run_agent modelDoneFirst 3 exState = RunResult.finished exFinalDoneFirst ∧
    exFinalDoneFirst.messages.filter (fun m => m.role == Role.tool) = [] :=
  ⟨rfl, rfl, rfl⟩

/-- C2 witness: applying the amended theorem at the concrete Done-first
run. -/
theorem done_alongside_first_call_routing_witness :
    run_agent modelDoneFirst 1 exState =
      RunResult.finished (applyUpdate exState (llm_call modelDoneFirst exState)) :=
  (done_alongside_first_call_routing modelDoneFirst exState doneCall
    [emailCall] rfl).1 rfl 0

/-- C6 counterexample: the model turn requests the unregistered tool
send_sms after a first call named Done; the run terminates normally
instead of aborting with a dispatch failure. -/
theorem unknown_after_done_not_aborted_cex :
    (modelDoneThenUnknown (llm_prompt exState)).2.map ToolCall.name =
      ["Done", "send_sms"] ∧
    tools_by_name.lookup "send_sms" = none ∧
    run_agent modelDoneThenUnknown 3 exState =
      RunResult.finished exFinalDoneUnknown :=
  ⟨rfl, rfl, rfl⟩

/-- C6 witness: a turn whose first call names the unregistered send_sms
aborts the run with a KeyError naming an unregistered tool. -/
theorem unknown_tool_aborts_witness :
    ∃ n, run_agent modelUnknownFirst 1 exState =
        RunResult.failed (PyError.keyError (some n)) ∧
      tools_by_name.lookup n = none ∧
      ∀ msg, PyError.keyError (some n) ≠ PyError.valueError msg :=
  unknown_tool_aborts modelUnknownFirst 0 exState smsCall [] rfl (by decide)
    ⟨smsCall, List.mem_cons_self _ _, rfl⟩

/-- C1 witness: the terminated Done-only run contains an assistant
message carrying a Done tool call. -/
theorem termination_requires_done_witness :
    ∃ m ∈ exFinalDoneOnly.messages, m.role = Role.assistant ∧
      ∃ tc ∈ m.tool_calls, tc.name = "Done" :=
  termination_requires_done modelDoneOnly 2 exState exFinalDoneOnly rfl

/-- C3 witness: an ignore classification ends the workflow with the
messages untouched and only classification_decision set. -/
theorem terminal_classification_frame_witness :
    overall_workflow routerIgnore modelDoneOnly 1 exInitState =
      RunResult.finished
        { exInitState with classification_decision :=
            (some (triageResult routerIgnore exInitState).classification) } :=
  terminal_classification_frame routerIgnore modelDoneOnly 1 exInitState
    (Or.inl rfl)

/-- C4 witness: a model response without tool calls fails the run with
the KeyError raised on the None branch result. -/
theorem no_tool_call_is_fatal_witness :
    run_agent modelNoCalls 1 exState = RunResult.failed (PyError.keyError none) :=
  no_tool_call_is_fatal modelNoCalls 0 exState rfl

/-- C5 witness: dispatching the write_email-then-Done turn yields two
tool messages linked to the two call ids in order. -/
theorem tool_results_bijection_witness :
    exToolUpdate.messages.map (fun m => m.tool_call_id) =
      exToolTurnMsg.tool_calls.map (fun c => some c.id) ∧
    exToolUpdate.messages.length = exToolTurnMsg.tool_calls.length :=
  ⟨(tool_results_bijection exStateTools exToolTurnMsg exToolUpdate rfl rfl).1,
   (tool_results_bijection exStateTools exToolTurnMsg exToolUpdate rfl rfl).2.1⟩

/-- C7 witness: the out-of-set label urgent raises ValueError and fails
the workflow. -/
theorem invalid_label_raises_witness :
    triage_router routerBad exInitState = Except.error (PyError.valueError
        ("Invalid classification: "
          ++ (triageResult routerBad exInitState).classification)) ∧
    overall_workflow routerBad modelDoneOnly 1 exInitState =
      RunResult.failed (PyError.valueError
        ("Invalid classification: "
          ++ (triageResult routerBad exInitState).classification)) :=
  invalid_label_raises routerBad modelDoneOnly 1 exInitState (by decide)

/-- C8 witness: the respond classification seeds exactly one user
instruction message with the formatted email and routes to the response
agent. -/
theorem respond_seeds_instruction_witness :
    triage_router routerRespond exInitState = Except.ok
      { goto := TriageGoto.response_agent
        update :=
          { messages :=
              [{ role := Role.user
                 content := "Respond to the email: \n\n"
                   ++ format_email_markdown exInitState.email_input.subject
                       exInitState.email_input.author exInitState.email_input.«to»
                       exInitState.email_input.email_thread
                 tool_calls := []
                 tool_call_id := none }]
            classification_decision := some "respond" } } :=
  respond_seeds_instruction routerRespond exInitState rfl

/-- C9 witness: with write_email first and Done second, the router
sends the turn to the tool handler, not to END. -/
theorem routing_depends_on_first_call_witness :
    should_continue exStateTools =
      Except.ok (if emailCall.name = "Done" then some «END» else some "tool_handler") :=
  routing_depends_on_first_call exStateTools exToolTurnMsg emailCall [doneCall]
    rfl rfl

end EmailAgent
